import Mathlib

/-!
Verification development for the `melcloud_custom` Home Assistant integration
(`custom_components/melcloud_custom/`).  The Python sources are shallowly
embedded: device state is an explicit record, every `device.set(props)` call
is reified as a property record, fallible operations return `Except`, and the
entity adapters' getters/setters become pure Lean functions over these records.
-/

set_option autoImplicit false

namespace MelCloud

/-! ## Host-platform hvac-mode constants (homeassistant.components.climate.const) -/

def HVAC_MODE_OFF : String := "off"
def HVAC_MODE_HEAT : String := "heat"
def HVAC_MODE_COOL : String := "cool"
def HVAC_MODE_DRY : String := "dry"
def HVAC_MODE_FAN_ONLY : String := "fan_only"
def HVAC_MODE_HEAT_COOL : String := "heat_cool"
def HVAC_MODE_AUTO : String := "auto"

/-! ## Vendor constants (pymelcloud.ata_device) -/

def OPERATION_MODE_HEAT : String := "heat"
def OPERATION_MODE_DRY : String := "dry"
def OPERATION_MODE_COOL : String := "cool"
def OPERATION_MODE_FAN_ONLY : String := "fan_only"
def OPERATION_MODE_HEAT_COOL : String := "heat_cool"

def V_VANE_POSITION_AUTO : String := "auto"
def V_VANE_POSITION_1 : String := "1"
def V_VANE_POSITION_2 : String := "2"
def V_VANE_POSITION_3 : String := "3"
def V_VANE_POSITION_4 : String := "4"
def V_VANE_POSITION_5 : String := "5"
def V_VANE_POSITION_SWING : String := "swing"

def H_VANE_POSITION_AUTO : String := "auto"
def H_VANE_POSITION_1 : String := "1"
def H_VANE_POSITION_2 : String := "2"
def H_VANE_POSITION_3 : String := "3"
def H_VANE_POSITION_4 : String := "4"
def H_VANE_POSITION_5 : String := "5"
def H_VANE_POSITION_SPLIT : String := "split"
def H_VANE_POSITION_SWING : String := "swing"

/-- Modelled from the spec: `const.py` is not under `src/`; it defines the
host-side swing-mode vocabularies `VertSwingModes` and `HorSwingModes`, one
opaque label per vane position per axis.  The labels are represented by
distinct strings, the horizontal ones prefixed so that the two axes'
vocabularies stay disjoint (each axis has its own lookup table in
`climate.py`). -/
def VertSwingModes_Auto : String := "Auto"
def VertSwingModes_Top : String := "Top"
def VertSwingModes_MiddleTop : String := "MiddleTop"
def VertSwingModes_Middle : String := "Middle"
def VertSwingModes_MiddleBottom : String := "MiddleBottom"
def VertSwingModes_Bottom : String := "Bottom"
def VertSwingModes_Swing : String := "Swing"

def HorSwingModes_Auto : String := "HorAuto"
def HorSwingModes_Left : String := "HorLeft"
def HorSwingModes_MiddleLeft : String := "HorMiddleLeft"
def HorSwingModes_Middle : String := "HorMiddle"
def HorSwingModes_MiddleRight : String := "HorMiddleRight"
def HorSwingModes_Right : String := "HorRight"
def HorSwingModes_Split : String := "HorSplit"
def HorSwingModes_Swing : String := "HorSwing"

/-! ## Lookup tables (climate.py, module level)

Python dicts with distinct keys are embedded as association lists queried
with `List.lookup`; the `*_REVERSE_LOOKUP` dicts are built by inverting the
forward table, as in `{v: k for k, v in LOOKUP.items()}`. -/

def ATA_HVAC_MODE_LOOKUP : List (String × String) :=
  [(OPERATION_MODE_HEAT, HVAC_MODE_HEAT),
   (OPERATION_MODE_DRY, HVAC_MODE_DRY),
   (OPERATION_MODE_COOL, HVAC_MODE_COOL),
   (OPERATION_MODE_FAN_ONLY, HVAC_MODE_FAN_ONLY),
   (OPERATION_MODE_HEAT_COOL, HVAC_MODE_HEAT_COOL)]

def ATA_HVAC_MODE_REVERSE_LOOKUP : List (String × String) :=
  ATA_HVAC_MODE_LOOKUP.map (fun p => (p.2, p.1))

def ATA_HVAC_VVANE_LOOKUP : List (String × String) :=
  [(V_VANE_POSITION_AUTO, VertSwingModes_Auto),
   (V_VANE_POSITION_1, VertSwingModes_Top),
   (V_VANE_POSITION_2, VertSwingModes_MiddleTop),
   (V_VANE_POSITION_3, VertSwingModes_Middle),
   (V_VANE_POSITION_4, VertSwingModes_MiddleBottom),
   (V_VANE_POSITION_5, VertSwingModes_Bottom),
   (V_VANE_POSITION_SWING, VertSwingModes_Swing)]

def ATA_HVAC_VVANE_REVERSE_LOOKUP : List (String × String) :=
  ATA_HVAC_VVANE_LOOKUP.map (fun p => (p.2, p.1))

def ATA_HVAC_HVANE_LOOKUP : List (String × String) :=
  [(H_VANE_POSITION_AUTO, HorSwingModes_Auto),
   (H_VANE_POSITION_1, HorSwingModes_Left),
   (H_VANE_POSITION_2, HorSwingModes_MiddleLeft),
   (H_VANE_POSITION_3, HorSwingModes_Middle),
   (H_VANE_POSITION_4, HorSwingModes_MiddleRight),
   (H_VANE_POSITION_5, HorSwingModes_Right),
   (H_VANE_POSITION_SPLIT, HorSwingModes_Split),
   (H_VANE_POSITION_SWING, HorSwingModes_Swing)]

def ATA_HVAC_HVANE_REVERSE_LOOKUP : List (String × String) :=
  ATA_HVAC_HVANE_LOOKUP.map (fun p => (p.2, p.1))

/-! ## ATA device state and property sets

`pymelcloud.AtaDevice` exposes `power : bool`, `operation_mode :
Optional[str]`, the two vane positions (`Optional[str]`) and the two
supported-position lists.  `device.set(properties)` receives a dict of
property names; a property record with one optional field per settable
property reifies that dict, and `applyAtaProps` is the external client's
act of writing the given properties into the device state. -/

structure AtaState where
  power : Bool
  operationMode : Option String
  vaneVertical : Option String
  vaneHorizontal : Option String
  vaneVerticalPositions : List String
  vaneHorizontalPositions : List String
  deriving Repr, DecidableEq

structure AtaProps where
  power : Option Bool := none
  operationMode : Option String := none
  vaneVertical : Option String := none
  vaneHorizontal : Option String := none
  deriving Repr, DecidableEq

def applyAtaProps (st : AtaState) (p : AtaProps) : AtaState :=
  { st with
    power := p.power.getD st.power
    operationMode :=
      match p.operationMode with
      | some v => some v
      | none => st.operationMode
    vaneVertical :=
      match p.vaneVertical with
      | some v => some v
      | none => st.vaneVertical
    vaneHorizontal :=
      match p.vaneHorizontal with
      | some v => some v
      | none => st.vaneHorizontal }

/-! ## AtaDeviceClimate.hvac_mode / async_set_hvac_mode (climate.py 176-197) -/

def hvacMode (st : AtaState) : String :=
  if st.power = false then HVAC_MODE_OFF
  else
    match st.operationMode with
    | none => HVAC_MODE_OFF
    | some m => (ATA_HVAC_MODE_LOOKUP.lookup m).getD HVAC_MODE_AUTO

/-- `async_set_hvac_mode`: returns the property record passed to the single
`device.set` call, or an error when the requested mode has no vendor
translation.  `HVAC_MODE_OFF` sends only `power = False`; a supported
non-off mode sends the translated operation mode and additionally
`power = True` when the currently read `hvac_mode` is `HVAC_MODE_OFF`. -/
def asyncSetHvacMode (st : AtaState) (mode : String) : Except String AtaProps :=
  if mode = HVAC_MODE_OFF then
    .ok { power := some false }
  else
    match ATA_HVAC_MODE_REVERSE_LOOKUP.lookup mode with
    | none => .error "Invalid hvac_mode"
    | some op =>
      if hvacMode st = HVAC_MODE_OFF then
        .ok { operationMode := some op, power := some true }
      else
        .ok { operationMode := some op }

/-! ## AtaDeviceClimate swing state (climate.py 154-156, 240-281)

The adapter keeps three booleans set in `__init__` from the device's
supported-position lists, of which `_set_hor_swing` is later mutated by
`async_set_swing_mode`. -/

structure SwingAdapterState where
  supportVerSwing : Bool
  supportHorSwing : Bool
  setHorSwing : Bool
  deriving Repr, DecidableEq

/-- `AtaDeviceClimate.__init__` swing-flag initialisation. -/
def initSwingAdapter (st : AtaState) : SwingAdapterState :=
  { supportVerSwing := decide (0 < st.vaneVerticalPositions.length)
    supportHorSwing := decide (0 < st.vaneHorizontalPositions.length)
    setHorSwing :=
      decide (0 < st.vaneHorizontalPositions.length) &&
        !(decide (0 < st.vaneVerticalPositions.length)) }

/-- `AtaDeviceClimate.swing_mode` (climate.py 240-256): pick the axis that is
currently "set" (horizontal only when both the flag and the support bit hold,
else vertical when supported), translate the vendor position through the
forward table, and fall back to the literal string `"Auto"` when nothing was
translated. -/
def swingMode (ad : SwingAdapterState) (st : AtaState) : Option String :=
  let swing : Option String :=
    if ad.setHorSwing && ad.supportHorSwing then
      match st.vaneHorizontal with
      | some m => ATA_HVAC_HVANE_LOOKUP.lookup m
      | none => none
    else if ad.supportVerSwing then
      match st.vaneVertical with
      | some m => ATA_HVAC_VVANE_LOOKUP.lookup m
      | none => none
    else none
  match swing with
  | none => some "Auto"
  | some v => some v

/-- `AtaDeviceClimate.async_set_swing_mode` (climate.py 258-281): translate
the host label through the vertical reverse table first, then the horizontal
one; raise `ValueError` when neither table has it or when the translated
vendor position is not in the device's supported-position list for that axis.
On success return the updated adapter flag together with the property record
of the single `device.set` call — `none` when the device already reports the
requested position (the code skips the network call in that case). -/
def asyncSetSwingMode (ad : SwingAdapterState) (st : AtaState) (swing : String) :
    Except String (SwingAdapterState × Option AtaProps) :=
  match ATA_HVAC_VVANE_REVERSE_LOOKUP.lookup swing with
  | some op =>
    if op ∈ st.vaneVerticalPositions then
      .ok ({ ad with setHorSwing := false },
        if st.vaneVertical ≠ some op then some { vaneVertical := some op } else none)
    else .error "Invalid swing_mode"
  | none =>
    match ATA_HVAC_HVANE_REVERSE_LOOKUP.lookup swing with
    | none => .error "Invalid swing_mode"
    | some op =>
      if op ∈ st.vaneHorizontalPositions then
        .ok ({ ad with setHorSwing := true },
          if st.vaneHorizontal ≠ some op then some { vaneHorizontal := some op } else none)
      else .error "Invalid swing_mode"

/-! ## MelCloudDevice.async_update / async_set (init 194-211)

The body of each method awaits the underlying client call inside
`try/except ClientConnectionError`.  The client call's outcome is an
explicit parameter; the result records whether an exception escaped the
method and the value of `_available` afterwards. -/

inductive CallOutcome where
  | ok
  | connectionError
  | otherError
  deriving Repr, DecidableEq

structure WrapperResult where
  propagated : Bool
  available : Bool
  deriving Repr, DecidableEq

/-- Body of `MelCloudDevice.async_update` (after the throttle has admitted the
call): success sets `_available = True`; `ClientConnectionError` is caught and
sets `_available = False`; any other exception escapes before the assignment,
leaving `_available` unchanged. -/
def asyncUpdateBody (avail : Bool) : CallOutcome → WrapperResult
  | .ok => { propagated := false, available := true }
  | .connectionError => { propagated := false, available := false }
  | .otherError => { propagated := true, available := avail }

/-- Body of `MelCloudDevice.async_set`: identical availability handling around
`device.set`. -/
def asyncSetWrapperBody (avail : Bool) : CallOutcome → WrapperResult
  | .ok => { propagated := false, available := true }
  | .connectionError => { propagated := false, available := false }
  | .otherError => { propagated := true, available := avail }

/-! ## Throttle(MIN_TIME_BETWEEN_UPDATES) (init 51, 194) -/

/-- Modelled from the spec: the `Throttle` decorator comes from the host
platform (`homeassistant.util`, not under `src/`); per the spec it is an
explicit last-executed-call timestamp plus a minimum-interval check guarding
the refresh, admitting a call only when no call has executed yet or when
strictly more than `MIN_TIME_BETWEEN_UPDATES = 60` seconds have passed since
the last executed one.  Times are seconds as naturals; the returned boolean
is whether the wrapped body (the refresh) ran. -/
def throttledUpdate (lastCall : Option Nat) (now : Nat) : Bool × Option Nat :=
  match lastCall with
  | none => (true, some now)
  | some t => if 60 < now - t then (true, some now) else (false, some t)

/-- Number of refreshes executed by a sequence of update calls at the given
times, starting from the given throttle state. -/
def refreshCount (lastCall : Option Nat) : List Nat → Nat
  | [] => 0
  | t :: ts =>
    let r := throttledUpdate lastCall t
    (if r.1 then 1 else 0) + refreshCount r.2 ts

/-! ## MelCloudAuthentication.login (init 81-112)

The method resets the stored context key, posts the login body with
`raise_for_status=True` (so a connection failure or a non-success HTTP
status raises out of the method — there is no `try/except` here), and
inspects the decoded JSON: success requires an `ErrorId` key equal to
`None`, in which case `req.get("LoginData").get("ContextKey")` is stored
and `True` returned; every other decoded body logs and returns `False`.
A `None` session returns `False` immediately. -/

structure LoginData where
  contextKey : Option String
  deriving Repr, DecidableEq

structure LoginBody where
  hasErrorId : Bool
  errorIdIsNone : Bool
  loginData : Option LoginData
  deriving Repr, DecidableEq

inductive LoginResponse where
  | netError
  | httpError
  | body (req : Option LoginBody)
  deriving Repr, DecidableEq

structure LoginResult where
  returned : Bool
  contextKey : Option String
  deriving Repr, DecidableEq

def login (hasSession : Bool) (resp : LoginResponse) : Except String LoginResult :=
  if hasSession = false then
    .ok { returned := false, contextKey := none }
  else
    match resp with
    | .netError => .error "ClientConnectionError"
    | .httpError => .error "ClientResponseError"
    | .body none => .ok { returned := false, contextKey := none }
    | .body (some req) =>
      if req.hasErrorId && req.errorIdIsNone then
        match req.loginData with
        | none => .error "AttributeError"
        | some ld => .ok { returned := true, contextKey := ld.contextKey }
      else
        .ok { returned := false, contextKey := none }

/-! ## MelCloudDevice.extra_attributes (init 279-304)

Attribute values are either strings or the integer device id; the returned
dict is an insertion-ordered association list with distinct keys.  A unit
dict carries `model` and `serial_number` fields (`ATTR_STATE_UMODEL`,
`ATTR_STATE_USERIAL`). -/

inductive AttrVal where
  | str (s : String)
  | int (n : Int)
  deriving Repr, DecidableEq

structure UnitInfo where
  model : String
  serialNumber : String
  deriving Repr, DecidableEq

structure WrappedDevice where
  deviceId : Int
  serial : String
  mac : String
  units : Option (List UnitInfo)
  deriving Repr, DecidableEq

/-- Entries contributed by `for i, u in enumerate(unit_infos): if i < 2: ...`:
the first unit fills `unit`/`unit_serial`, the second `ext_unit`/
`ext_unit_serial`, further units are ignored. -/
def unitAttrs : List UnitInfo → List (String × AttrVal)
  | [] => []
  | [u] => [("unit", .str u.model), ("unit_serial", .str u.serialNumber)]
  | u :: v :: _ =>
    [("unit", .str u.model), ("unit_serial", .str u.serialNumber),
     ("ext_unit", .str v.model), ("ext_unit_serial", .str v.serialNumber)]

/-- `MelCloudDevice.extra_attributes`: returns the cached dict when
`self._extra_attributes` is truthy (it is `None` initially and only ever
assigned a dict holding at least the three identity keys, so `Option`
captures the truthiness test); otherwise builds the dict and memoizes it
exactly when `device.units` is not `None`.  Returns the attributes together
with the new memo field. -/
def extraAttributes (memo : Option (List (String × AttrVal))) (dev : WrappedDevice) :
    List (String × AttrVal) × Option (List (String × AttrVal)) :=
  match memo with
  | some cached => (cached, some cached)
  | none =>
    let base : List (String × AttrVal) :=
      [("device_id", .int dev.deviceId),
       ("device_serial", .str dev.serial),
       ("device_mac", .str dev.mac)]
    match dev.units with
    | none => (base, none)
    | some us =>
      let data := base ++ unitAttrs us
      (data, some data)

/-! ## fan.py: ERV fan adapter -/

def ORDERED_NAMED_FAN_SPEEDS : List String := ["1", "2", "3", "4"]

/-- Modelled from the spec: `percentage_to_ordered_list_item` lives in the
host platform's percentage utility (not under `src/`); per the spec it is a
fixed ordered-list bucketing helper with bucket boundaries evenly spaced
across the list length: it walks the list and returns the first item whose
upper bucket bound `position * 100 / len` is at least the requested
percentage, falling back to the last item. -/
def percentageToOrderedListItemAux (listLen : Nat) (pos : Nat) (p : ℚ) :
    List String → Option String
  | [] => none
  | s :: rest =>
    if p ≤ ((pos * 100 : ℚ) / (listLen : ℚ)) then some s
    else percentageToOrderedListItemAux listLen (pos + 1) p rest

def percentageToOrderedListItem (l : List String) (p : ℚ) : Option String :=
  match percentageToOrderedListItemAux l.length 1 p l with
  | some s => some s
  | none => l.getLast?

/-- Python's `round` (banker's rounding, ties to even) on a rational. -/
def pythonRound (q : ℚ) : Int :=
  let f := ⌊q⌋
  if q - (f : ℚ) < 1 / 2 then f
  else if (1 : ℚ) / 2 < q - (f : ℚ) then f + 1
  else if f % 2 = 0 then f else f + 1

/-- Modelled from the spec: `ordered_list_item_to_percentage`, the inverse
direction of the host platform's bucketing helper — the item's 1-based
position times `100 / len`, rounded; `none` models the `ValueError` raised
for an item not in the list. -/
def orderedListItemToPercentage (l : List String) (item : String) : Option Int :=
  match l.indexOf? item with
  | none => none
  | some i => some (pythonRound (((i + 1 : Nat) * 100 : ℚ) / (l.length : ℚ)))

/-- Calls a fan-adapter method can make against the device. -/
inductive FanAction where
  | turnOff
  | setPreset (speed : String)
  deriving Repr, DecidableEq

/-- `ErvDeviceFan.async_set_percentage` (fan.py 187-195): a non-zero
percentage is bucketed to a named speed and forwarded to
`async_set_preset_mode`; `0` turns the fan off. `none` models the exception
an empty speed list would raise (unreachable for the fixed four-step
list). -/
def asyncSetPercentage (p : ℚ) : Option FanAction :=
  if p ≠ 0 then
    (percentageToOrderedListItem ORDERED_NAMED_FAN_SPEEDS p).map .setPreset
  else
    some .turnOff

/-- Calls `ErvDeviceFan.async_toggle` can dispatch to. -/
inductive ToggleCall where
  | turnOn
  | turnOff
  deriving Repr, DecidableEq

/-- Evaluation of the call expression `self._device.power()` in
`async_toggle` (fan.py 164): `pymelcloud` declares `power` as a `@property`
returning a bool — it is read without parentheses everywhere else in the
repository (fan.py 86, 150, 158; climate.py 180, 360) — so the expression
reads the bool and then applies it, raising
`TypeError: bool object is not callable` whatever the power state is. -/
def callPowerProperty (_state : Bool) : Except String Bool :=
  .error "TypeError"

/-- `ErvDeviceFan.async_toggle` (fan.py 162-168): evaluates
`self._device.power()` and then dispatches on the result, with both branches
of the conditional calling `async_turn_on`; the guard raises before either
branch is reached. -/
def asyncToggle (state : Bool) : Except String ToggleCall :=
  match callPowerProperty state with
  | .error e => .error e
  | .ok s => if !s then .ok ToggleCall.turnOn else .ok ToggleCall.turnOn

/-! ## Entity unique ids (climate.py 152, 344; fan.py 60; select.py 40;
sensor.py 241) -/

def ataClimateUniqueId (serial mac : String) : String :=
  serial ++ "-" ++ mac

def atwZoneClimateUniqueId (serial : String) (zoneIndex : Nat) : String :=
  serial ++ "-" ++ toString zoneIndex

def ervFanUniqueId (serial mac : String) : String :=
  serial ++ "-" ++ mac

def ervSelectUniqueId (serial mac : String) : String :=
  serial ++ "-" ++ mac ++ "_ventilation_mode"

def melSensorUniqueId (serial mac sensorKey : String) : String :=
  serial ++ "-" ++ mac ++ "-" ++ sensorKey

/-! ## Helper lemmas -/

lemma hvacMode_of_power_false (st : AtaState) (h : st.power = false) :
    hvacMode st = HVAC_MODE_OFF := by
  simp [hvacMode, h]

lemma power_true_of_hvacMode_ne_off (st : AtaState)
    (h : hvacMode st ≠ HVAC_MODE_OFF) : st.power = true := by
  by_contra hp
  exact h (hvacMode_of_power_false st (by simpa using hp))

lemma ata_reverse_forward (mode op : String)
    (h : ATA_HVAC_MODE_REVERSE_LOOKUP.lookup mode = some op) :
    mode ≠ HVAC_MODE_OFF ∧ ATA_HVAC_MODE_LOOKUP.lookup op = some mode := by
  simp only [ATA_HVAC_MODE_REVERSE_LOOKUP, ATA_HVAC_MODE_LOOKUP, List.map,
    List.lookup] at h
  repeat' split at h
  all_goals
    first
      | (rename_i heq
         have heqp := eq_of_beq heq
         subst heqp
         injection h with h'
         subst h'
         exact ⟨by decide, by decide⟩)
      | cases h

lemma set_mode_roundtrip (st : AtaState) (mode op : String) (props : AtaProps)
    (h1 : mode ≠ HVAC_MODE_OFF)
    (h2 : ATA_HVAC_MODE_REVERSE_LOOKUP.lookup mode = some op)
    (h3 : ATA_HVAC_MODE_LOOKUP.lookup op = some mode)
    (hset : asyncSetHvacMode st mode = .ok props) :
    hvacMode (applyAtaProps st props) = mode := by
  unfold asyncSetHvacMode at hset
  rw [if_neg h1] at hset
  split at hset
  next heq => rw [h2] at heq; cases heq
  next op' heq =>
    rw [h2] at heq
    injection heq with heq'
    subst heq'
    by_cases hoff : hvacMode st = HVAC_MODE_OFF
    · rw [if_pos hoff] at hset
      cases hset
      simp [hvacMode, applyAtaProps, h3]
    · rw [if_neg hoff] at hset
      cases hset
      have hpow := power_true_of_hvacMode_ne_off st hoff
      simp [hvacMode, applyAtaProps, hpow, h3]

end MelCloud

/-! ## Claim theorems -/

/-- C1: for the air-to-air climate adapter, `hvac_mode` reads `off` whenever
the device power flag is false regardless of the stored operation mode;
setting a supported non-off mode while the current mode reads `off` also
sets power to true in the same property set; setting `off` sends only
`power = False` and leaves the remembered operation mode unchanged; and
setting a supported mode then reading back yields that mode, except that
after setting `off` the read always yields `off`. -/
theorem C1_ata_hvac_power_gating :
    (∀ st : MelCloud.AtaState, st.power = false →
      MelCloud.hvacMode st = MelCloud.HVAC_MODE_OFF) ∧
    (∀ (st : MelCloud.AtaState) (mode op : String) (props : MelCloud.AtaProps),
      mode ≠ MelCloud.HVAC_MODE_OFF →
      MelCloud.ATA_HVAC_MODE_REVERSE_LOOKUP.lookup mode = some op →
      MelCloud.hvacMode st = MelCloud.HVAC_MODE_OFF →
      MelCloud.asyncSetHvacMode st mode = .ok props →
      props.power = some true) ∧
    (∀ st : MelCloud.AtaState,
      MelCloud.asyncSetHvacMode st MelCloud.HVAC_MODE_OFF =
        .ok { power := some false } ∧
      (MelCloud.applyAtaProps st { power := some false }).operationMode =
        st.operationMode) ∧
    (∀ (st : MelCloud.AtaState) (mode op : String) (props : MelCloud.AtaProps),
      MelCloud.ATA_HVAC_MODE_REVERSE_LOOKUP.lookup mode = some op →
      MelCloud.asyncSetHvacMode st mode = .ok props →
      MelCloud.hvacMode (MelCloud.applyAtaProps st props) = mode) ∧
    (∀ (st : MelCloud.AtaState) (props : MelCloud.AtaProps),
      MelCloud.asyncSetHvacMode st MelCloud.HVAC_MODE_OFF = .ok props →
      MelCloud.hvacMode (MelCloud.applyAtaProps st props) = MelCloud.HVAC_MODE_OFF) := by
  refine ⟨MelCloud.hvacMode_of_power_false, ?_, ?_, ?_, ?_⟩
  · intro st mode op props hne hlk hoff hset
    unfold MelCloud.asyncSetHvacMode at hset
    rw [if_neg hne, hlk] at hset
    simp only [if_pos hoff] at hset
    cases hset
    rfl
  · intro st
    exact ⟨by simp [MelCloud.asyncSetHvacMode], rfl⟩
  · intro st mode op props hlk hset
    obtain ⟨h1, h3⟩ := MelCloud.ata_reverse_forward mode op hlk
    exact MelCloud.set_mode_roundtrip st mode op props h1 hlk h3 hset
  · intro st props hset
    unfold MelCloud.asyncSetHvacMode at hset
    rw [if_pos rfl] at hset
    cases hset
    exact MelCloud.hvacMode_of_power_false _ rfl

/-- Witness for C1 at concrete states: a powered-off device with a remembered
heat mode reads `off`; setting `cool` from that state powers on and reads
back `cool`; setting `off` on a powered-on cooling device leaves the stored
mode and reads `off`. -/
theorem C1_ata_hvac_power_gating_witness :
    MelCloud.hvacMode
      { power := false, operationMode := some MelCloud.OPERATION_MODE_HEAT,
        vaneVertical := none, vaneHorizontal := none,
        vaneVerticalPositions := [], vaneHorizontalPositions := [] } =
      MelCloud.HVAC_MODE_OFF ∧
    (MelCloud.AtaProps.power
      { operationMode := some MelCloud.OPERATION_MODE_COOL, power := some true } =
      some true) ∧
    MelCloud.hvacMode
      (MelCloud.applyAtaProps
        { power := false, operationMode := some MelCloud.OPERATION_MODE_HEAT,
          vaneVertical := none, vaneHorizontal := none,
          vaneVerticalPositions := [], vaneHorizontalPositions := [] }
        { operationMode := some MelCloud.OPERATION_MODE_COOL, power := some true }) =
      MelCloud.HVAC_MODE_COOL ∧
    MelCloud.hvacMode
      (MelCloud.applyAtaProps
        { power := true, operationMode := some MelCloud.OPERATION_MODE_COOL,
          vaneVertical := none, vaneHorizontal := none,
          vaneVerticalPositions := [], vaneHorizontalPositions := [] }
        { power := some false }) =
      MelCloud.HVAC_MODE_OFF := by
  refine ⟨?_, ?_, ?_, ?_⟩
  · exact C1_ata_hvac_power_gating.1 _ rfl
  · exact C1_ata_hvac_power_gating.2.1
      { power := false, operationMode := some MelCloud.OPERATION_MODE_HEAT,
        vaneVertical := none, vaneHorizontal := none,
        vaneVerticalPositions := [], vaneHorizontalPositions := [] }
      MelCloud.HVAC_MODE_COOL MelCloud.OPERATION_MODE_COOL
      { operationMode := some MelCloud.OPERATION_MODE_COOL, power := some true }
      (by decide) rfl rfl rfl
  · exact C1_ata_hvac_power_gating.2.2.2.1 _
      MelCloud.HVAC_MODE_COOL MelCloud.OPERATION_MODE_COOL _ rfl rfl
  · exact C1_ata_hvac_power_gating.2.2.2.2 _ _ rfl

/-- C2: `async_set_swing_mode` raises `ValueError` — with no property record
produced, hence zero `device.set` calls — for every swing value absent from
both vane lookup tables, and for every value whose translated vendor position
is missing from the device's reported supported-position list for the
targeted axis. -/
theorem C2_swing_mode_validation :
    (∀ (ad : MelCloud.SwingAdapterState) (st : MelCloud.AtaState) (swing : String),
      MelCloud.ATA_HVAC_VVANE_REVERSE_LOOKUP.lookup swing = none →
      MelCloud.ATA_HVAC_HVANE_REVERSE_LOOKUP.lookup swing = none →
      MelCloud.asyncSetSwingMode ad st swing = .error "Invalid swing_mode") ∧
    (∀ (ad : MelCloud.SwingAdapterState) (st : MelCloud.AtaState) (swing op : String),
      MelCloud.ATA_HVAC_VVANE_REVERSE_LOOKUP.lookup swing = some op →
      op ∉ st.vaneVerticalPositions →
      MelCloud.asyncSetSwingMode ad st swing = .error "Invalid swing_mode") ∧
    (∀ (ad : MelCloud.SwingAdapterState) (st : MelCloud.AtaState) (swing op : String),
      MelCloud.ATA_HVAC_VVANE_REVERSE_LOOKUP.lookup swing = none →
      MelCloud.ATA_HVAC_HVANE_REVERSE_LOOKUP.lookup swing = some op →
      op ∉ st.vaneHorizontalPositions →
      MelCloud.asyncSetSwingMode ad st swing = .error "Invalid swing_mode") := by
  refine ⟨?_, ?_, ?_⟩
  · intro ad st swing hv hh
    unfold MelCloud.asyncSetSwingMode
    rw [hv, hh]
  · intro ad st swing op hv hmem
    unfold MelCloud.asyncSetSwingMode
    rw [hv]
    simp [hmem]
  · intro ad st swing op hv hh hmem
    unfold MelCloud.asyncSetSwingMode
    rw [hv, hh]
    simp [hmem]

/-- Witness for C2: the unknown label "Bogus" is rejected outright, and the
vertical label for the swing position is rejected on a device that supports
only the auto vertical position. -/
theorem C2_swing_mode_validation_witness :
    MelCloud.asyncSetSwingMode
      { supportVerSwing := true, supportHorSwing := false, setHorSwing := false }
      { power := true, operationMode := none, vaneVertical := some MelCloud.V_VANE_POSITION_AUTO,
        vaneHorizontal := none,
        vaneVerticalPositions := [MelCloud.V_VANE_POSITION_AUTO],
        vaneHorizontalPositions := [] }
      "Bogus" = .error "Invalid swing_mode" ∧
    MelCloud.asyncSetSwingMode
      { supportVerSwing := true, supportHorSwing := false, setHorSwing := false }
      { power := true, operationMode := none, vaneVertical := some MelCloud.V_VANE_POSITION_AUTO,
        vaneHorizontal := none,
        vaneVerticalPositions := [MelCloud.V_VANE_POSITION_AUTO],
        vaneHorizontalPositions := [] }
      MelCloud.VertSwingModes_Swing = .error "Invalid swing_mode" := by
  constructor
  · exact C2_swing_mode_validation.1 _ _ "Bogus" rfl rfl
  · exact C2_swing_mode_validation.2.1 _ _ MelCloud.VertSwingModes_Swing
      MelCloud.V_VANE_POSITION_SWING rfl (by decide)

/-- C3: `async_update` and `async_set` catch only `ClientConnectionError`:
a connection failure clears the availability flag and does not raise, a call
that completes without a connection error sets it back to true, and any other
exception propagates with the flag unchanged.  The composed scenario shows a
failed update followed by a successful one restoring availability. -/
theorem C3_availability_flagging :
    (∀ a : Bool, MelCloud.asyncUpdateBody a .connectionError =
      { propagated := false, available := false }) ∧
    (∀ a : Bool, MelCloud.asyncUpdateBody a .ok =
      { propagated := false, available := true }) ∧
    (∀ a : Bool, MelCloud.asyncUpdateBody a .otherError =
      { propagated := true, available := a }) ∧
    (∀ a : Bool, MelCloud.asyncSetWrapperBody a .connectionError =
      { propagated := false, available := false }) ∧
    (∀ a : Bool, MelCloud.asyncSetWrapperBody a .ok =
      { propagated := false, available := true }) ∧
    (∀ a : Bool, MelCloud.asyncSetWrapperBody a .otherError =
      { propagated := true, available := a }) ∧
    (∀ a : Bool,
      (MelCloud.asyncUpdateBody
        (MelCloud.asyncUpdateBody a .connectionError).available .ok).available = true) ∧
    (∀ a : Bool,
      (MelCloud.asyncSetWrapperBody
        (MelCloud.asyncUpdateBody a .connectionError).available .ok).available = true) :=
  ⟨fun _ => rfl, fun _ => rfl, fun _ => rfl, fun _ => rfl, fun _ => rfl,
   fun _ => rfl, fun _ => rfl, fun _ => rfl⟩

/-- C4: the 60-second throttle admits at most one refresh for two update
calls within 60 seconds of each other, from any throttle state; and an update
issued strictly more than 60 seconds after the last executed refresh runs a
new refresh. -/
theorem C4_update_throttle :
    (∀ (last : Option Nat) (t1 t2 : Nat), t1 ≤ t2 → t2 - t1 ≤ 60 →
      MelCloud.refreshCount last [t1, t2] ≤ 1) ∧
    (∀ t tNext : Nat, 60 < tNext - t →
      (MelCloud.throttledUpdate (some t) tNext).1 = true) := by
  constructor
  · intro last t1 t2 hle hgap
    match last with
    | none =>
      simp only [MelCloud.refreshCount, MelCloud.throttledUpdate]
      have : ¬60 < t2 - t1 := by omega
      simp [this]
    | some t0 =>
      simp only [MelCloud.refreshCount, MelCloud.throttledUpdate]
      by_cases h1 : 60 < t1 - t0
      · have h2 : ¬60 < t2 - t1 := by omega
        simp [h1, h2]
      · by_cases h2 : 60 < t2 - t0
        · simp [h1, h2]
        · simp [h1, h2]
  · intro t tNext h
    simp [MelCloud.throttledUpdate, h]

/-- Witness for C4: two calls 30 seconds apart from a fresh wrapper refresh
once; a call 61 seconds after an executed refresh at time 0 refreshes
again. -/
theorem C4_update_throttle_witness :
    MelCloud.refreshCount none [0, 30] ≤ 1 ∧
    (MelCloud.throttledUpdate (some 0) 61).1 = true := by
  constructor
  · exact C4_update_throttle.1 none 0 30 (by decide) (by decide)
  · exact C4_update_throttle.2 0 61 (by decide)

/-- C5 counterexample: `login` has no `try/except`, and the POST is made with
`raise_for_status=True`, so at the concrete inputs "network error" and
"non-success HTTP status" the method raises instead of returning the boolean
failure result the claim asserts. -/
theorem C5_login_counterexample :
    MelCloud.login true MelCloud.LoginResponse.netError =
      .error "ClientConnectionError" ∧
    MelCloud.login true MelCloud.LoginResponse.httpError =
      .error "ClientResponseError" ∧
    (MelCloud.login true MelCloud.LoginResponse.netError).isOk = false ∧
    (MelCloud.login true MelCloud.LoginResponse.httpError).isOk = false :=
  ⟨rfl, rfl, rfl, rfl⟩

/-- C5 (amended): a populated or missing error-indicator field yields the
boolean failure result `False`; a network error or a non-success HTTP status
raises out of `login` (the caller turns any exception into a retryable
not-ready condition); a response whose `ErrorId` field is present and `None`
has its nested `LoginData.ContextKey` token extracted, stored, and `True`
returned. -/
theorem C5_login_behavior :
    (∀ req : MelCloud.LoginBody, (req.hasErrorId && req.errorIdIsNone) = false →
      MelCloud.login true (.body (some req)) =
        .ok { returned := false, contextKey := none }) ∧
    (MelCloud.login true .netError = .error "ClientConnectionError") ∧
    (MelCloud.login true .httpError = .error "ClientResponseError") ∧
    (MelCloud.login true (.body none) = .ok { returned := false, contextKey := none }) ∧
    (∀ (req : MelCloud.LoginBody) (ld : MelCloud.LoginData),
      req.hasErrorId = true → req.errorIdIsNone = true → req.loginData = some ld →
      MelCloud.login true (.body (some req)) =
        .ok { returned := true, contextKey := ld.contextKey }) := by
  refine ⟨?_, rfl, rfl, rfl, ?_⟩
  · intro req h
    simp [MelCloud.login, h]
  · intro req ld h1 h2 h3
    simp [MelCloud.login, h1, h2, h3]

/-- Witness for C5 (amended) at concrete responses: a populated `ErrorId`
returns `False`; a `None` `ErrorId` with a login-data token returns `True`
with the token stored. -/
theorem C5_login_behavior_witness :
    MelCloud.login true
      (.body (some { hasErrorId := true, errorIdIsNone := false, loginData := none })) =
      .ok { returned := false, contextKey := none } ∧
    MelCloud.login true
      (.body (some { hasErrorId := true, errorIdIsNone := true,
                     loginData := some { contextKey := some "token" } })) =
      .ok { returned := true, contextKey := some "token" } := by
  constructor
  · exact C5_login_behavior.1
      { hasErrorId := true, errorIdIsNone := false, loginData := none } rfl
  · exact C5_login_behavior.2.2.2.2
      { hasErrorId := true, errorIdIsNone := true,
        loginData := some { contextKey := some "token" } }
      { contextKey := some "token" } rfl rfl rfl

/-- C6: when the device reports a non-`None` unit list, the first call to
`extra_attributes` computes and memoizes the mapping; a second call — even
against a device whose unit composition has changed — returns exactly the
first call's content; and the mapping contains the device id, serial, MAC,
and the model/serial pair of each of the first at most two sub-units. -/
theorem C6_extra_attributes_memoized :
    ∀ (dev devChanged : MelCloud.WrappedDevice) (us : List MelCloud.UnitInfo),
      dev.units = some us →
      (MelCloud.extraAttributes (MelCloud.extraAttributes none dev).2 devChanged).1 =
        (MelCloud.extraAttributes none dev).1 ∧
      (MelCloud.extraAttributes none dev).1.lookup "device_id" =
        some (.int dev.deviceId) ∧
      (MelCloud.extraAttributes none dev).1.lookup "device_serial" =
        some (.str dev.serial) ∧
      (MelCloud.extraAttributes none dev).1.lookup "device_mac" =
        some (.str dev.mac) ∧
      (∀ u, us.head? = some u →
        (MelCloud.extraAttributes none dev).1.lookup "unit" = some (.str u.model) ∧
        (MelCloud.extraAttributes none dev).1.lookup "unit_serial" =
          some (.str u.serialNumber)) ∧
      (∀ u, us.get? 1 = some u →
        (MelCloud.extraAttributes none dev).1.lookup "ext_unit" = some (.str u.model) ∧
        (MelCloud.extraAttributes none dev).1.lookup "ext_unit_serial" =
          some (.str u.serialNumber)) := by
  intro dev devChanged us hunits
  refine ⟨?_, ?_, ?_, ?_, ?_, ?_⟩
  · simp [MelCloud.extraAttributes, hunits]
  · simp [MelCloud.extraAttributes, hunits, List.lookup]
  · simp [MelCloud.extraAttributes, hunits, List.lookup]
  · simp [MelCloud.extraAttributes, hunits, List.lookup]
  · intro u hu
    match us, hu with
    | u :: rest, rfl =>
      match rest with
      | [] =>
        constructor <;> simp [MelCloud.extraAttributes, hunits, MelCloud.unitAttrs, List.lookup]
      | v :: rest' =>
        constructor <;> simp [MelCloud.extraAttributes, hunits, MelCloud.unitAttrs, List.lookup]
  · intro u hu
    match us, hu with
    | v :: u :: rest, hu =>
      simp only [List.get?] at hu
      cases hu
      constructor <;> simp [MelCloud.extraAttributes, hunits, MelCloud.unitAttrs, List.lookup]

/-- Witness for C6: a device with two sub-units; after the first computation
a second read against a device with different units returns the original
content, which holds the identity fields and both unit model/serial pairs. -/
theorem C6_extra_attributes_memoized_witness :
    (MelCloud.extraAttributes
      (MelCloud.extraAttributes none
        { deviceId := 7, serial := "S1", mac := "AA:BB",
          units := some [{ model := "M1", serialNumber := "U1" },
                          { model := "M2", serialNumber := "U2" }] }).2
      { deviceId := 7, serial := "S1", mac := "AA:BB", units := some [] }).1 =
      (MelCloud.extraAttributes none
        { deviceId := 7, serial := "S1", mac := "AA:BB",
          units := some [{ model := "M1", serialNumber := "U1" },
                          { model := "M2", serialNumber := "U2" }] }).1 ∧
    (MelCloud.extraAttributes none
      { deviceId := 7, serial := "S1", mac := "AA:BB",
        units := some [{ model := "M1", serialNumber := "U1" },
                        { model := "M2", serialNumber := "U2" }] }).1.lookup "unit" =
      some (.str "M1") ∧
    (MelCloud.extraAttributes none
      { deviceId := 7, serial := "S1", mac := "AA:BB",
        units := some [{ model := "M1", serialNumber := "U1" },
                        { model := "M2", serialNumber := "U2" }] }).1.lookup "ext_unit_serial" =
      some (.str "U2") := by
  refine ⟨?_, ?_, ?_⟩
  · exact (C6_extra_attributes_memoized _ _ _ rfl).1
  · exact ((C6_extra_attributes_memoized
      { deviceId := 7, serial := "S1", mac := "AA:BB",
        units := some [{ model := "M1", serialNumber := "U1" },
                        { model := "M2", serialNumber := "U2" }] }
      { deviceId := 7, serial := "S1", mac := "AA:BB", units := some [] }
      [{ model := "M1", serialNumber := "U1" },
       { model := "M2", serialNumber := "U2" }] rfl).2.2.2.2.1
      { model := "M1", serialNumber := "U1" } rfl).1
  · exact ((C6_extra_attributes_memoized
      { deviceId := 7, serial := "S1", mac := "AA:BB",
        units := some [{ model := "M1", serialNumber := "U1" },
                        { model := "M2", serialNumber := "U2" }] }
      { deviceId := 7, serial := "S1", mac := "AA:BB", units := some [] }
      [{ model := "M1", serialNumber := "U1" },
       { model := "M2", serialNumber := "U2" }] rfl).2.2.2.2.2
      { model := "M2", serialNumber := "U2" } rfl).2

/-- C7: for the fixed four-step speed list of the ERV fan, converting each
named speed to a percentage and feeding that percentage back into
`async_set_percentage` selects the same named speed, and a set-percentage
call with 0% performs turn-off, never a named speed. -/
theorem C7_fan_percentage_roundtrip :
    ((MelCloud.orderedListItemToPercentage MelCloud.ORDERED_NAMED_FAN_SPEEDS "1").bind
        (fun p => MelCloud.asyncSetPercentage (p : ℚ)) =
      some (.setPreset "1")) ∧
    ((MelCloud.orderedListItemToPercentage MelCloud.ORDERED_NAMED_FAN_SPEEDS "2").bind
        (fun p => MelCloud.asyncSetPercentage (p : ℚ)) =
      some (.setPreset "2")) ∧
    ((MelCloud.orderedListItemToPercentage MelCloud.ORDERED_NAMED_FAN_SPEEDS "3").bind
        (fun p => MelCloud.asyncSetPercentage (p : ℚ)) =
      some (.setPreset "3")) ∧
    ((MelCloud.orderedListItemToPercentage MelCloud.ORDERED_NAMED_FAN_SPEEDS "4").bind
        (fun p => MelCloud.asyncSetPercentage (p : ℚ)) =
      some (.setPreset "4")) ∧
    MelCloud.asyncSetPercentage 0 = some .turnOff := by
  refine ⟨?_, ?_, ?_, ?_, ?_⟩
  all_goals
    simp [MelCloud.orderedListItemToPercentage, MelCloud.ORDERED_NAMED_FAN_SPEEDS,
      MelCloud.pythonRound, MelCloud.asyncSetPercentage,
      MelCloud.percentageToOrderedListItem, MelCloud.percentageToOrderedListItemAux,
      List.indexOf?]
  all_goals norm_num

/-- C8 counterexample: the ERV ventilation-mode select entity's unique id at
serial "S" and MAC "M" is "S-M_ventilation_mode", which is neither of the
claimed forms `<serial>-<mac>` ("S-M") nor `<serial>-<zone index>` ("S-1" /
"S-2", zones being at most two per device); the sensor ids likewise append a
sensor key. -/
theorem C8_unique_id_counterexample :
    MelCloud.ervSelectUniqueId "S" "M" = "S-M_ventilation_mode" ∧
    (MelCloud.ervSelectUniqueId "S" "M" == "S-M") = false ∧
    (MelCloud.ervSelectUniqueId "S" "M" == MelCloud.atwZoneClimateUniqueId "S" 1) = false ∧
    (MelCloud.ervSelectUniqueId "S" "M" == MelCloud.atwZoneClimateUniqueId "S" 2) = false ∧
    (MelCloud.melSensorUniqueId "S" "M" "energy" == "S-M") = false := by
  refine ⟨rfl, ?_, ?_, ?_, ?_⟩ <;> decide

/-- C8 (amended): the ATA climate and ERV fan entities use unique ids of the
form `<serial>-<mac>` and ATW zone climates use `<serial>-<zone index>`, but
the ERV ventilation-mode select appends `_ventilation_mode` to
`<serial>-<mac>` and the sensors append `-<sensor key>`; the select id in
particular always differs from the plain `<serial>-<mac>` form. -/
theorem C8_unique_id_forms :
    ∀ (serial mac sensorKey : String) (zoneIndex : Nat),
      MelCloud.ataClimateUniqueId serial mac = serial ++ "-" ++ mac ∧
      MelCloud.ervFanUniqueId serial mac = serial ++ "-" ++ mac ∧
      MelCloud.atwZoneClimateUniqueId serial zoneIndex =
        serial ++ "-" ++ toString zoneIndex ∧
      MelCloud.ervSelectUniqueId serial mac =
        serial ++ "-" ++ mac ++ "_ventilation_mode" ∧
      MelCloud.melSensorUniqueId serial mac sensorKey =
        serial ++ "-" ++ mac ++ "-" ++ sensorKey ∧
      (MelCloud.ervSelectUniqueId serial mac ==
        MelCloud.ataClimateUniqueId serial mac) = false := by
  intro serial mac sensorKey zoneIndex
  refine ⟨rfl, rfl, rfl, rfl, rfl, ?_⟩
  rw [beq_eq_false_iff_ne]
  intro h
  have hlen := congrArg String.length h
  simp [MelCloud.ervSelectUniqueId, MelCloud.ataClimateUniqueId,
    String.length_append] at hlen
  exact absurd hlen (by decide)

/-- C9: for every power state of the ERV fan device, `async_toggle` raises
`TypeError` before either branch of its conditional runs — the guard
`self._device.power()` calls the bool returned by the `power` property — so
neither turn-on nor turn-off is ever called, contradicting the claim that
turn-on is called for every power state (the source's two branches do both
spell turn-on, but they are unreachable). -/
theorem C9_fan_toggle_typeerror :
    ∀ state : Bool, MelCloud.asyncToggle state = .error "TypeError" := by
  intro state
  cases state <;> rfl

/-- C10: the air-to-air `swing_mode` read returns the literal string "Auto"
whenever the axis selected by the current preference reports no vane
position, whenever neither vane axis is supported, or whenever the reported
vendor position has no entry in the corresponding lookup table; and it never
returns `None`. -/
theorem C10_swing_mode_auto_fallback :
    (∀ (ad : MelCloud.SwingAdapterState) (st : MelCloud.AtaState),
      (ad.setHorSwing && ad.supportHorSwing) = true →
      st.vaneHorizontal = none →
      MelCloud.swingMode ad st = some "Auto") ∧
    (∀ (ad : MelCloud.SwingAdapterState) (st : MelCloud.AtaState),
      (ad.setHorSwing && ad.supportHorSwing) = false →
      ad.supportVerSwing = true →
      st.vaneVertical = none →
      MelCloud.swingMode ad st = some "Auto") ∧
    (∀ (ad : MelCloud.SwingAdapterState) (st : MelCloud.AtaState),
      ad.supportHorSwing = false →
      ad.supportVerSwing = false →
      MelCloud.swingMode ad st = some "Auto") ∧
    (∀ (ad : MelCloud.SwingAdapterState) (st : MelCloud.AtaState) (m : String),
      (ad.setHorSwing && ad.supportHorSwing) = true →
      st.vaneHorizontal = some m →
      MelCloud.ATA_HVAC_HVANE_LOOKUP.lookup m = none →
      MelCloud.swingMode ad st = some "Auto") ∧
    (∀ (ad : MelCloud.SwingAdapterState) (st : MelCloud.AtaState) (m : String),
      (ad.setHorSwing && ad.supportHorSwing) = false →
      ad.supportVerSwing = true →
      st.vaneVertical = some m →
      MelCloud.ATA_HVAC_VVANE_LOOKUP.lookup m = none →
      MelCloud.swingMode ad st = some "Auto") ∧
    (∀ (ad : MelCloud.SwingAdapterState) (st : MelCloud.AtaState),
      MelCloud.swingMode ad st ≠ none) := by
  refine ⟨?_, ?_, ?_, ?_, ?_, ?_⟩
  · intro ad st hsel hnone
    simp [MelCloud.swingMode, hsel, hnone]
  · intro ad st hsel hver hnone
    simp [MelCloud.swingMode, hsel, hver, hnone]
  · intro ad st hhor hver
    simp [MelCloud.swingMode, hhor, hver]
  · intro ad st m hsel hpos hlk
    simp [MelCloud.swingMode, hsel, hpos, hlk]
  · intro ad st m hsel hver hpos hlk
    simp [MelCloud.swingMode, hsel, hver, hpos, hlk]
  · intro ad st
    unfold MelCloud.swingMode
    by_cases h1 : (ad.setHorSwing && ad.supportHorSwing) = true
    · simp only [if_pos h1]
      cases hv : st.vaneHorizontal with
      | none => simp
      | some m =>
        cases hlk : List.lookup m MelCloud.ATA_HVAC_HVANE_LOOKUP <;> simp [hv, hlk]
    · simp only [if_neg h1]
      by_cases h2 : ad.supportVerSwing = true
      · simp only [if_pos h2]
        cases hv : st.vaneVertical with
        | none => simp
        | some m =>
          cases hlk : List.lookup m MelCloud.ATA_HVAC_VVANE_LOOKUP <;> simp [hv, hlk]
      · simp [if_neg h2]

/-- Witness for C10 at concrete states: a vertical-only adapter whose device
reports no vertical vane position reads "Auto"; an adapter with no supported
axis reads "Auto"; a horizontal-preferring adapter whose device reports a
vendor position unknown to the horizontal table reads "Auto". -/
theorem C10_swing_mode_auto_fallback_witness :
    MelCloud.swingMode
      { supportVerSwing := true, supportHorSwing := false, setHorSwing := false }
      { power := true, operationMode := none, vaneVertical := none,
        vaneHorizontal := none,
        vaneVerticalPositions := [MelCloud.V_VANE_POSITION_AUTO],
        vaneHorizontalPositions := [] } = some "Auto" ∧
    MelCloud.swingMode
      { supportVerSwing := false, supportHorSwing := false, setHorSwing := false }
      { power := true, operationMode := none, vaneVertical := some MelCloud.V_VANE_POSITION_1,
        vaneHorizontal := none,
        vaneVerticalPositions := [], vaneHorizontalPositions := [] } = some "Auto" ∧
    MelCloud.swingMode
      { supportVerSwing := false, supportHorSwing := true, setHorSwing := true }
      { power := true, operationMode := none, vaneVertical := none,
        vaneHorizontal := some "mystery_position",
        vaneVerticalPositions := [],
        vaneHorizontalPositions := [MelCloud.H_VANE_POSITION_AUTO] } = some "Auto" := by
  refine ⟨?_, ?_, ?_⟩
  · exact C10_swing_mode_auto_fallback.2.1 _ _ rfl rfl rfl
  · exact C10_swing_mode_auto_fallback.2.2.1 _ _ rfl rfl
  · exact C10_swing_mode_auto_fallback.2.2.2.1 _ _ "mystery_position" rfl rfl rfl
